import Mathlib

/-!
Verification of the configuration component of the ai-agency-platform
repository.

The repository source (`src/configs/src/lib.rs`) contains the module
`config` with the single function `default_path`, which takes no
arguments and returns the string literal `".config"`.  We embed it as a
Lean function from `Unit` so that "a call" of the Rust function
corresponds to an application of the Lean function.

The specification additionally describes a `ConfigResolver` component
with a pure operation `resolve`; that operation is not present in the
source tree, so it is modelled from the specification text below.
-/

namespace config

/-- Embedding of `config::default_path` from `src/configs/src/lib.rs`:
`pub fn default_path() -> &'static str { ".config" }`. -/
def default_path (_u : Unit) : String :=
  ".config"

end config

/-- Modelled from the spec: a character counts as whitespace for the
purpose of trimming override strings (space, tab, carriage return,
newline). -/
def isWhitespaceChar (c : Char) : Bool :=
  c = ' ' || c = '\t' || c = '\r' || c = '\n'

/-- Modelled from the spec: an override string is blank when it is empty
or consists only of whitespace, i.e. it is empty after trimming
whitespace.  We decide this directly on the underlying character list. -/
def isBlank (s : String) : Bool :=
  s.data.all isWhitespaceChar

/-- Modelled from the spec: `ConfigSource` is "a tagged variant
describing where a candidate path came from — `Default`,
`EnvironmentOverride`, `ExplicitOverride`". -/
inductive ConfigSource where
  | Default
  | EnvironmentOverride
  | ExplicitOverride
deriving DecidableEq, Repr

/-- Modelled from the spec: `ResolvedConfigPath` is "the single chosen
path ... plus the `ConfigSource` that produced it". -/
structure ResolvedConfigPath where
  path : String
  source : ConfigSource
deriving DecidableEq, Repr

/-- Modelled from the spec: "empty or whitespace-only overrides are
treated as absent"; a candidate override is normalized to `none` when it
is absent or blank. -/
def normalizeOverride (o : Option String) : Option String :=
  match o with
  | none => none
  | some s => if isBlank s then none else some s

/-- Modelled from the spec: the missing `ConfigResolver` operation
`resolve(explicit_override: Option<String>, env_override: Option<String>)
-> ResolvedConfigPath`.  Precedence is explicit override (highest), then
environment override, then the default path `".config"` (fallback); the
returned `ConfigSource` tag identifies which branch fired. -/
def resolve (explicit_override env_override : Option String) :
    ResolvedConfigPath :=
  match normalizeOverride explicit_override with
  | some p => ⟨p, ConfigSource.ExplicitOverride⟩
  | none =>
    match normalizeOverride env_override with
    | some p => ⟨p, ConfigSource.EnvironmentOverride⟩
    | none => ⟨config.default_path (), ConfigSource.Default⟩

/-- A string begins with a path separator when its first character is
`'/'` or `'\\'`; decided on the underlying character list. -/
def beginsWithPathSep (s : String) : Bool :=
  match s.data with
  | [] => false
  | c :: _ => c = '/' || c = '\\'

/-- An override value is absent-or-blank: either it is `none`, or it is
`some` string that is blank. -/
def absentOrBlank (o : Option String) : Prop :=
  o = none ∨ ∃ s, o = some s ∧ isBlank s = true

/-- An absent-or-blank override normalizes to `none`. -/
theorem normalizeOverride_eq_none (o : Option String)
    (h : absentOrBlank o) : normalizeOverride o = none := by
  rcases h with h | ⟨s, hs, hb⟩
  · subst h; rfl
  · subst hs; simp [normalizeOverride, hb]

/-- A present non-blank override normalizes to itself. -/
theorem normalizeOverride_eq_some (o : Option String) (s : String)
    (hs : o = some s) (hb : isBlank s = false) :
    normalizeOverride o = some s := by
  subst hs; simp [normalizeOverride, hb]

/-- C1: whenever the explicit override is present and non-blank after
trimming, `resolve` returns that override string with source
`ExplicitOverride`, regardless of the environment override. -/
theorem resolve_explicit_wins (e v : Option String) (s : String)
    (hs : e = some s) (hb : isBlank s = false) :
    resolve e v = ⟨s, ConfigSource.ExplicitOverride⟩ := by
  have h := normalizeOverride_eq_some e s hs hb
  simp [resolve, h]

/-- Witness for C1: Scenario C, `resolve(Some("/tmp/cfg"),
Some("/etc/agency"))` yields `("/tmp/cfg", ExplicitOverride)`. -/
theorem resolve_explicit_wins_witness :
    resolve (some "/tmp/cfg") (some "/etc/agency") =
      ⟨"/tmp/cfg", ConfigSource.ExplicitOverride⟩ :=
  resolve_explicit_wins (some "/tmp/cfg") (some "/etc/agency") "/tmp/cfg"
    rfl (by decide)

/-- C2: whenever the explicit override is absent or blank and the
environment override is present and non-blank after trimming, `resolve`
returns the environment override string with source
`EnvironmentOverride`. -/
theorem resolve_env_wins (e v : Option String) (s : String)
    (he : absentOrBlank e) (hv : v = some s) (hb : isBlank s = false) :
    resolve e v = ⟨s, ConfigSource.EnvironmentOverride⟩ := by
  have h1 := normalizeOverride_eq_none e he
  have h2 := normalizeOverride_eq_some v s hv hb
  simp [resolve, h1, h2]

/-- Witness for C2: Scenario B, `resolve(None, Some("/etc/agency"))`
yields `("/etc/agency", EnvironmentOverride)`. -/
theorem resolve_env_wins_witness :
    resolve none (some "/etc/agency") =
      ⟨"/etc/agency", ConfigSource.EnvironmentOverride⟩ :=
  resolve_env_wins none (some "/etc/agency") "/etc/agency"
    (Or.inl rfl) rfl (by decide)

/-- C3: whenever both overrides are absent or blank, `resolve` returns
exactly the string `".config"` with source `Default`. -/
theorem resolve_default_fallback (e v : Option String)
    (he : absentOrBlank e) (hv : absentOrBlank v) :
    resolve e v = ⟨".config", ConfigSource.Default⟩ := by
  have h1 := normalizeOverride_eq_none e he
  have h2 := normalizeOverride_eq_none v hv
  simp [resolve, h1, h2, config.default_path]

/-- Witness for C3: Scenario A, `resolve(None, None)` yields
`(".config", Default)`. -/
theorem resolve_default_fallback_witness :
    resolve none none = ⟨".config", ConfigSource.Default⟩ :=
  resolve_default_fallback none none (Or.inl rfl) (Or.inl rfl)

/-- C4: the default configuration path is a fixed read-only value: every
call of `config::default_path` returns exactly the string `".config"`. -/
theorem default_path_is_dot_config (u : Unit) :
    config.default_path u = ".config" :=
  rfl

/-- Witness for C4: a concrete call returns `".config"`. -/
theorem default_path_is_dot_config_witness :
    config.default_path () = ".config" :=
  default_path_is_dot_config ()

/-- C5: an empty or whitespace-only override is normalized to absent
rather than rejected; in particular a blank explicit override combined
with a present non-blank environment override yields the environment
override with source `EnvironmentOverride`. -/
theorem blank_override_treated_absent (s t : String)
    (hb : isBlank s = true) (ht : isBlank t = false) :
    normalizeOverride (some s) = none ∧
    resolve (some s) (some t) = ⟨t, ConfigSource.EnvironmentOverride⟩ := by
  have h1 : normalizeOverride (some s) = none := by
    simp [normalizeOverride, hb]
  refine ⟨h1, ?_⟩
  have h2 := normalizeOverride_eq_some (some t) t rfl ht
  simp [resolve, h1, h2]

/-- Witness for C5: Scenario D, `resolve(Some("   "),
Some("/etc/agency"))` yields `("/etc/agency", EnvironmentOverride)`. -/
theorem blank_override_treated_absent_witness :
    normalizeOverride (some "   ") = none ∧
    resolve (some "   ") (some "/etc/agency") =
      ⟨"/etc/agency", ConfigSource.EnvironmentOverride⟩ :=
  blank_override_treated_absent "   " "/etc/agency" (by decide) (by decide)

/-- C6: `resolve` is total over its declared input domain: every input
pair yields exactly one `ResolvedConfigPath`, and exactly one source tag
fires per call (the tags cannot tie). -/
theorem resolve_total_and_unique_source (e v : Option String) :
    (∃! r : ResolvedConfigPath, resolve e v = r) ∧
    (((resolve e v).source = ConfigSource.ExplicitOverride ∧
        (resolve e v).source ≠ ConfigSource.EnvironmentOverride ∧
        (resolve e v).source ≠ ConfigSource.Default) ∨
      ((resolve e v).source = ConfigSource.EnvironmentOverride ∧
        (resolve e v).source ≠ ConfigSource.ExplicitOverride ∧
        (resolve e v).source ≠ ConfigSource.Default) ∨
      ((resolve e v).source = ConfigSource.Default ∧
        (resolve e v).source ≠ ConfigSource.ExplicitOverride ∧
        (resolve e v).source ≠ ConfigSource.EnvironmentOverride)) := by
  refine ⟨⟨resolve e v, rfl, fun r hr => hr.symm⟩, ?_⟩
  cases h : (resolve e v).source
  · exact Or.inr (Or.inr ⟨rfl, by decide, by decide⟩)
  · exact Or.inr (Or.inl ⟨rfl, by decide, by decide⟩)
  · exact Or.inl ⟨rfl, by decide, by decide⟩

/-- C7: `resolve` is deterministic and free of hidden state: two
invocations on equal inputs produce identical results (same path string
and same source tag). -/
theorem resolve_deterministic (e₁ v₁ e₂ v₂ : Option String)
    (he : e₁ = e₂) (hv : v₁ = v₂) :
    resolve e₁ v₁ = resolve e₂ v₂ := by
  subst he; subst hv; rfl

/-- Witness for C7: two invocations on the inputs of Scenario C agree. -/
theorem resolve_deterministic_witness :
    resolve (some "/tmp/cfg") (some "/etc/agency") =
      resolve (some "/tmp/cfg") (some "/etc/agency") :=
  resolve_deterministic (some "/tmp/cfg") (some "/etc/agency")
    (some "/tmp/cfg") (some "/etc/agency") rfl rfl

/-- C8: the string returned by `config::default_path` is non-empty and
is not blank (it does not consist only of whitespace), so the
normalization rule can never classify it as absent. -/
theorem default_path_not_blank :
    (config.default_path ()).isEmpty = false ∧
    isBlank (config.default_path ()) = false ∧
    normalizeOverride (some (config.default_path ())) =
      some (config.default_path ()) := by
  refine ⟨by decide, by decide, ?_⟩
  simp [normalizeOverride, config.default_path, isBlank, isWhitespaceChar]

/-- C9: `config::default_path` is deterministic: any two calls return
equal string values. -/
theorem default_path_deterministic (u v : Unit) :
    config.default_path u = config.default_path v :=
  rfl

/-- Witness for C9: two concrete calls agree. -/
theorem default_path_deterministic_witness :
    config.default_path () = config.default_path () :=
  default_path_deterministic () ()

/-- C10: the default path returned by `config::default_path` is a
relative path: it does not begin with the separator `'/'` or `'\\'`. -/
theorem default_path_is_relative :
    beginsWithPathSep (config.default_path ()) = false := by
  decide
